import Mathlib

/-!
Shallow embedding of the python-ascendex streaming client
(`ascendex/web_socket_client.py`, `ascendex/reconnecting_websocket.py`,
`ascendex/util.py`, `ascendex/exceptions.py`) and proofs about its
dispatch, correlation, subscription and reconnection behaviour.
-/

namespace Ascendex

/-- Decoded JSON values, as produced by `json.loads` / `ujson.loads`.
Strings, integers, arrays and objects cover every shape the client code
inspects. -/
inductive JVal where
  | s (v : String)
  | n (v : Int)
  | arr (vs : List JVal)
  | obj (fields : List (String × JVal))
deriving Repr

mutual

/-- Decidable equality on JSON values (the derive handler does not support
the nested `List` occurrences, so it is spelled out). -/
def JVal.decEq : (a b : JVal) → Decidable (a = b)
  | .s x, .s y =>
      match String.decEq x y with
      | isTrue h => isTrue (by rw [h])
      | isFalse h => isFalse (by intro he; cases he; exact h rfl)
  | .n x, .n y =>
      match Int.decEq x y with
      | isTrue h => isTrue (by rw [h])
      | isFalse h => isFalse (by intro he; cases he; exact h rfl)
  | .arr xs, .arr ys =>
      match JVal.decEqList xs ys with
      | isTrue h => isTrue (by rw [h])
      | isFalse h => isFalse (by intro he; cases he; exact h rfl)
  | .obj xs, .obj ys =>
      match JVal.decEqFields xs ys with
      | isTrue h => isTrue (by rw [h])
      | isFalse h => isFalse (by intro he; cases he; exact h rfl)
  | .s _, .n _ => isFalse (by intro h; cases h)
  | .s _, .arr _ => isFalse (by intro h; cases h)
  | .s _, .obj _ => isFalse (by intro h; cases h)
  | .n _, .s _ => isFalse (by intro h; cases h)
  | .n _, .arr _ => isFalse (by intro h; cases h)
  | .n _, .obj _ => isFalse (by intro h; cases h)
  | .arr _, .s _ => isFalse (by intro h; cases h)
  | .arr _, .n _ => isFalse (by intro h; cases h)
  | .arr _, .obj _ => isFalse (by intro h; cases h)
  | .obj _, .s _ => isFalse (by intro h; cases h)
  | .obj _, .n _ => isFalse (by intro h; cases h)
  | .obj _, .arr _ => isFalse (by intro h; cases h)

/-- Decidable equality on lists of JSON values. -/
def JVal.decEqList : (a b : List JVal) → Decidable (a = b)
  | [], [] => isTrue rfl
  | [], _ :: _ => isFalse (by intro h; cases h)
  | _ :: _, [] => isFalse (by intro h; cases h)
  | x :: xs, y :: ys =>
      match JVal.decEq x y with
      | isTrue h1 =>
          match JVal.decEqList xs ys with
          | isTrue h2 => isTrue (by rw [h1, h2])
          | isFalse h2 => isFalse (by intro he; cases he; exact h2 rfl)
      | isFalse h1 => isFalse (by intro he; cases he; exact h1 rfl)

/-- Decidable equality on JSON object field lists. -/
def JVal.decEqFields : (a b : List (String × JVal)) → Decidable (a = b)
  | [], [] => isTrue rfl
  | [], _ :: _ => isFalse (by intro h; cases h)
  | _ :: _, [] => isFalse (by intro h; cases h)
  | (k1, v1) :: xs, (k2, v2) :: ys =>
      match String.decEq k1 k2 with
      | isTrue hk =>
          match JVal.decEq v1 v2 with
          | isTrue h1 =>
              match JVal.decEqFields xs ys with
              | isTrue h2 => isTrue (by rw [hk, h1, h2])
              | isFalse h2 => isFalse (by intro he; cases he; exact h2 rfl)
          | isFalse h1 => isFalse (by intro he; cases he; exact h1 rfl)
      | isFalse hk => isFalse (by intro he; cases he; exact hk rfl)

end

instance : DecidableEq JVal := JVal.decEq

/-- An inbound or outbound message: a decoded JSON object, i.e. an
association list of fields (Python `dict` keys are unique). -/
abbrev Msg := List (String × JVal)

/-- Association-list lookup, modelling Python `d[k]` / `k in d` on a dict. -/
def alookup {α β : Type} [DecidableEq α] : List (α × β) → α → Option β
  | [], _ => none
  | (k, v) :: rest, key => if k = key then some v else alookup rest key

/-- Association-list deletion, modelling Python `del d[k]`. -/
def aerase {α β : Type} [DecidableEq α] : List (α × β) → α → List (α × β)
  | [], _ => []
  | (k, v) :: rest, key =>
      if k = key then aerase rest key else (k, v) :: aerase rest key

theorem alookup_aerase_self {α β : Type} [DecidableEq α]
    (l : List (α × β)) (k : α) : alookup (aerase l k) k = none := by
  induction l with
  | nil => rfl
  | cons p rest ih =>
      obtain ⟨k', v⟩ := p
      by_cases h : k' = k
      · simp [aerase, h, ih]
      · simp [aerase, alookup, h, ih]

theorem alookup_aerase_ne {α β : Type} [DecidableEq α]
    (l : List (α × β)) (k k' : α) (h : k' ≠ k) :
    alookup (aerase l k) k' = alookup l k' := by
  induction l with
  | nil => rfl
  | cons p rest ih =>
      obtain ⟨k0, v⟩ := p
      by_cases hk : k0 = k
      · subst hk
        have : ¬ k0 = k' := fun he => h (he ▸ rfl)
        simp [aerase, alookup, this, ih]
      · by_cases hk' : k0 = k'
        · simp [aerase, alookup, hk, hk', h]
        · simp [aerase, alookup, hk, hk', ih]

/-! ### util.py -/

/-- Embedding of `util.get_message_topic`: prefer field `"m"`, then
`"message"`, else `None`. -/
def get_message_topic (message : Msg) : Option JVal :=
  match alookup message "m" with
  | some topic => some topic
  | none => alookup message "message"

/-- External cryptographic collaborators used by `util.sign`: HMAC-SHA256,
base64 codec and UTF-8 encoding are library primitives, not code of this
repository, so they are parameters of the embedding. -/
structure Crypto where
  hmacSha256 : List Nat → List Nat → List Nat
  b64decode : String → List Nat
  b64encode : List Nat → String
  utf8 : String → List Nat

/-- Embedding of `util.sign`: base64-encode the HMAC-SHA256 digest of the
UTF-8 message under the base64-decoded secret. -/
def sign (c : Crypto) (msg secret : String) : String :=
  c.b64encode (c.hmacSha256 (c.b64decode secret) (c.utf8 msg))

/-- Embedding of `util.make_auth_headers` for an integer timestamp: the
timestamp is converted to a string and the signed message is
`"<timestamp>+<path>"`. -/
def make_auth_headers (c : Crypto) (timestamp : Nat) (path apikey secret : String) :
    List (String × String) :=
  let ts := toString timestamp
  let msg := ts ++ "+" ++ path
  [("x-auth-key", apikey),
   ("x-auth-signature", sign c msg secret),
   ("x-auth-timestamp", ts)]

/-! ### web_socket_client.py — dispatch state -/

/-- A subscription callback handle: a registered coroutine, identified by a
number, together with whether invoking it raises an exception. -/
abbrev Cb := Nat × Bool

/-- The `WebSocketClient.subscribers` table: channel → id → registered
callbacks (`self.subscribers` is a dict of dicts; the inner Python `set` is
modelled as the list of its members in iteration order). -/
abbrev Registry := List (String × List (String × List Cb))

/-- A key of the `WebSocketClient.responses` table. `_wait_response`
registers string keys, but `on_message` indexes the table with raw JSON
field values, so keys are JSON values. -/
abbrev RKey := JVal × JVal

/-- The `WebSocketClient.responses` table, flattened: (action, id) → the
pending future, identified by a number. The `defaultdict(dict)` outer
layer only materialises empty inner dicts, which no lookup can observe, so
the flat form is observationally equal. -/
abbrev RTable := List (RKey × Nat)

/-- Result of the correlation-matching block of `on_message`
(web_socket_client.py lines 125-142): either a key to look up in
`responses`, or fall through to subscriber routing, or an uncaught
exception (only `KeyError` is caught there). -/
inductive CorrStep where
  | key (k : RKey)
  | skip
  | err
deriving DecidableEq, Repr

/-- Python `"id" in message["info"]` when `info` is a string: substring
containment of `"id"` (prefix test helper). -/
def isPre : List Char → List Char → Bool
  | [], _ => true
  | _ :: _, [] => false
  | p :: ps, c :: cs => p == c && isPre ps cs

/-- Substring search used by the string case of the `in` operator. -/
def hasSub : List Char → List Char → Bool
  | _, [] => true
  | [], _ :: _ => false
  | c :: rest, pat => isPre pat (c :: rest) || hasSub rest pat

/-- The `'info' in message and 'id' in message['info'] and
message['m'] != 'error'` arm of the correlation block. Python's `in`
operator on a non-dict `info` value: element test on a list, substring
test on a string, `TypeError` on an integer; a hit on a list or string is
followed by `message['info']['id']`, which raises `TypeError`. -/
def corr_info (message : Msg) (m : JVal) : CorrStep :=
  match alookup message "info" with
  | none => .skip
  | some (.obj fields) =>
      match alookup fields "id" with
      | some i => if m = .s "error" then .skip else .key (m, i)
      | none => .skip
  | some (.arr vs) => if (JVal.s "id") ∈ vs then .err else .skip
  | some (.s str) => if hasSub str.data ['i', 'd'] then .err else .skip
  | some (.n _) => .err

/-- The correlation key computed by `on_message` lines 126-138: `(m, id)`
if `"id"` is present, else `(m, symbol)` for a `depth-snapshot`, else
`(m, info["id"])` when `info` carries an id and `m` is not `"error"`. -/
def corr_key (message : Msg) : CorrStep :=
  match alookup message "m" with
  | none => .skip
  | some m =>
      match alookup message "id" with
      | some i => .key (m, i)
      | none =>
          match alookup message "symbol" with
          | some sym =>
              if m = .s "depth-snapshot" then .key (m, sym) else corr_info message m
          | none => corr_info message m

/-- Routing id extracted by `on_message` lines 144-158: `symbol`, then
`s`, then `ac` lowercased for `order`/`balance` topics, then `accountId`,
then `id`; `.lower()` on a non-string raises. -/
inductive RouteId where
  | found (v : JVal)
  | noId
  | err
deriving DecidableEq, Repr

/-- Python `str.lower()` on the `ac` field; any non-string raises
`AttributeError`. -/
def lower_ac : JVal → RouteId
  | .s t => .found (.s t.toLower)
  | _ => .err

/-- Embedding of the id-extraction chain of `on_message` (lines 144-158). -/
def route_id (message : Msg) (topic : Option JVal) : RouteId :=
  match alookup message "symbol" with
  | some v => .found v
  | none =>
  match alookup message "s" with
  | some v => .found v
  | none =>
      if topic = some (.s "order") ∧ (alookup message "ac").isSome then
        lower_ac ((alookup message "ac").getD (.s ""))
      else if topic = some (.s "balance") ∧ (alookup message "ac").isSome then
        lower_ac ((alookup message "ac").getD (.s ""))
      else
        match alookup message "accountId" with
        | some v => .found v
        | none =>
            match alookup message "id" with
            | some v => .found v
            | none => .noId

/-- Embedding of the data-extraction chain of `on_message` (lines
160-168): `data`, else `info`, else the whole message for `bar`/`summary`
topics, else nothing. -/
def route_data (message : Msg) (topic : Option JVal) : Option JVal :=
  match alookup message "data" with
  | some d => some d
  | none =>
      match alookup message "info" with
      | some d => some d
      | none =>
          if topic = some (.s "bar") ∨ topic = some (.s "summary") then some (.obj message)
          else none

/-- Lookup `self.subscribers[topic][id_]` (line 171). Registered keys are
strings, so any other key raises the `KeyError` caught at line 172. -/
def sub_lookup (subs : Registry) (topic : Option JVal) (i : JVal) : Option (List Cb) :=
  match topic, i with
  | some (.s ch), .s iid => (alookup subs ch).bind fun inner => alookup inner iid
  | _, _ => none

/-- Sequential fan-out over the subscriber set (lines 175-176): each
callback is awaited in turn; a raising callback terminates the loop and
the exception propagates out of `on_message` (there is no per-callback
handler — the catch-all sits around the whole message in
`ReconnectingWebsocket._run`, lines 60-65). Returns the handles actually
invoked and whether an exception escaped. -/
def deliver : List Cb → List Nat × Bool
  | [] => ([], false)
  | c :: rest =>
      if c.2 then ([c.1], true)
      else
        let r := deliver rest
        (c.1 :: r.1, r.2)

/-- Observable outcome of one `on_message` call. -/
inductive Outcome where
  | pinged
  | ignored
  | resolved
  | fanned
  | noSubscribers
  | unhandledNoId
  | noData
  | raised
deriving DecidableEq, Repr

/-- Full observable effect of one `on_message` call: the updated
`responses` table, which waiter (if any) was resolved and removed, the
subscriber callbacks invoked, and the control outcome. -/
structure DispatchOut where
  responses : RTable
  resolvedKey : Option RKey
  invoked : List Nat
  outcome : Outcome
deriving DecidableEq, Repr

/-- Routing section of `on_message` (lines 144-176): extract the routing
id and payload, look up subscribers, fan out. -/
def route (responses : RTable) (subs : Registry) (message : Msg)
    (topic : Option JVal) : DispatchOut :=
  match route_id message topic with
  | .err => ⟨responses, none, [], .raised⟩
  | .noId => ⟨responses, none, [], .unhandledNoId⟩
  | .found i =>
      match route_data message topic with
      | none => ⟨responses, none, [], .noData⟩
      | some _ =>
          match sub_lookup subs topic i with
          | none => ⟨responses, none, [], .noSubscribers⟩
          | some cbs =>
              let r := deliver cbs
              ⟨responses, none, r.1, if r.2 then .raised else .fanned⟩

/-- Correlation-then-routing tail of `on_message` (lines 125-176): if a
correlation key is computed and a waiter is pending under it, the waiter
is resolved (`set_result`) and deleted and the call returns; a missing
waiter raises `KeyError`, which the handler at lines 139-142 swallows
before falling into the routing section. -/
def corr_and_route (responses : RTable) (subs : Registry) (message : Msg)
    (topic : Option JVal) : DispatchOut :=
  match corr_key message with
  | .key k =>
      match alookup responses k with
      | some _ => ⟨aerase responses k, some k, [], .resolved⟩
      | none => route responses subs message topic
  | .skip => route responses subs message topic
  | .err => ⟨responses, none, [], .raised⟩

/-- Embedding of `WebSocketClient.on_message` (lines 103-176): control
topics first (`ping` answered, `pong`/`sub` ignored, `connected` ignored
when `type == "unauth"`, and `message["type"]` raising `KeyError` when
absent), then correlation, then subscriber routing. -/
def on_message (responses : RTable) (subs : Registry) (message : Msg) : DispatchOut :=
  let topic := get_message_topic message
  if topic = some (.s "ping") then ⟨responses, none, [], .pinged⟩
  else if topic = some (.s "pong") then ⟨responses, none, [], .ignored⟩
  else if topic = some (.s "sub") then ⟨responses, none, [], .ignored⟩
  else if topic = some (.s "connected") then
    match alookup message "type" with
    | none => ⟨responses, none, [], .raised⟩
    | some t =>
        if t = .s "unauth" then ⟨responses, none, [], .ignored⟩
        else corr_and_route responses subs message topic
  else corr_and_route responses subs message topic

/-! ### web_socket_client.py — subscribe / unsubscribe -/

/-- A wire frame produced by `_get_subscribe_message`:
`{"op": "sub"|"unsub", "ch": "<channel>:<id>"}`. -/
structure SubFrame where
  op : String
  ch : String
deriving DecidableEq, Repr

/-- Embedding of `WebSocketClient._get_subscribe_message` (lines 65-69). -/
def get_subscribe_message (channel symbols : String) (unsubscribe : Bool) : SubFrame :=
  { op := if unsubscribe then "unsub" else "sub",
    ch := channel ++ ":" ++ symbols }

/-- Embedding of `WebSocketClient._send_subscribe` (lines 71-74): the
frame goes out only when `self.ws.connected` is set. Returns the frames
written to the socket. -/
def send_subscribe (connected : Bool) (symbol channel : String) (unsubscribe : Bool) :
    List SubFrame :=
  if connected then [get_subscribe_message channel symbol unsubscribe] else []

/-- Embedding of `WebSocketClient.unsubscribe` (lines 89-95): first emit
the wire frame via `_send_subscribe`, then `del self.subscribers[channel][id_]`
(raising `KeyError` when either level is missing), then drop the channel
key when its inner dict became empty. Returns the frames sent, the final
registry, and whether the call raised. -/
def unsubscribe (connected : Bool) (subs : Registry) (channel id_ : String) :
    List SubFrame × Registry × Bool :=
  let frames := send_subscribe connected id_ channel true
  match alookup subs channel with
  | none => (frames, subs, true)
  | some inner =>
      match alookup inner id_ with
      | none => (frames, subs, true)
      | some _ =>
          let inner' := aerase inner id_
          if inner'.isEmpty then (frames, aerase subs channel, false)
          else (frames, (aerase subs channel).append [(channel, inner')], false)

/-! ### web_socket_client.py — _wait_response settle, exceptions.py -/

/-- Parameters of `AscendexAPIException.__init__` (exceptions.py line 13),
`self` excluded: the constructor accepts exactly a `response` and a
`text` argument. -/
def ascendex_exc_params : List String := ["response", "text"]

/-- Positional arguments passed at the raise site of `_wait_response`
(web_socket_client.py line 350): the URL, the action, the reply's
`reason` value, and the whole reply. -/
def wait_raise_args (url action : String) (reasonV : JVal) (result : Msg) : List JVal :=
  [.s url, .s action, reasonV, .obj result]

/-- Outcome of the settle phase of `_wait_response` once the future holds
a reply (lines 348-357). -/
inductive WaitOutcome where
  | ok (payload : JVal)
  | wholeMsg (m : Msg)
  | raisedApi (response text : JVal)
  | typeErr
deriving DecidableEq, Repr

/-- Python call protocol for `AscendexAPIException(args...)`: positional
arguments must match the `__init__` parameter list exactly, otherwise the
call raises `TypeError` before any constructor body runs. -/
def construct_ascendex_exc (args : List JVal) : WaitOutcome :=
  if args.length = ascendex_exc_params.length then
    match args with
    | [response, text] => .raisedApi response text
    | _ => .typeErr
  else .typeErr

/-- Embedding of the settle phase of `WebSocketClient._wait_response`
(lines 348-357): a reply carrying `reason` reaches the raise site, whose
constructor call is checked against the `__init__` signature; otherwise
return `data`, else `info`, else the whole reply. -/
def wait_response_settle (url action : String) (result : Msg) : WaitOutcome :=
  match alookup result "reason" with
  | some r => construct_ascendex_exc (wait_raise_args url action r result)
  | none =>
      match alookup result "data" with
      | some d => .ok d
      | none =>
          match alookup result "info" with
          | some d => .ok d
          | none => .wholeMsg result

/-! ### web_socket_client.py — authenticate -/

/-- The auth frame sent by `WebSocketClient.authenticate` (lines 45-56):
`sig` is the `x-auth-signature` entry of `make_auth_headers(ts, "stream",
key, secret)` and the frame is
`{op: "auth", id: id_, t: ts, key: key, sig: sig}`. -/
def auth_frame (c : Crypto) (ts : Nat) (id_ key secret : String) : Msg :=
  let sig := (alookup (make_auth_headers c ts "stream" key secret)
                "x-auth-signature").getD ""
  [("op", .s "auth"), ("id", .s id_), ("t", .n ts), ("key", .s key), ("sig", .s sig)]

/-- The signature the spec prescribes for the auth frame:
`base64(HMAC-SHA256(base64decode(secret), "<t>+stream"))`. -/
def spec_auth_sig (c : Crypto) (ts : Nat) (secret : String) : String :=
  c.b64encode (c.hmacSha256 (c.b64decode secret) (c.utf8 (toString ts ++ "+stream")))

/-! ### reconnecting_websocket.py — connection lifecycle -/

/-- `ReconnectingWebsocket.MAX_RECONNECTS`. -/
def MAX_RECONNECTS : Nat := 5

/-- Observable lifecycle state of a `ReconnectingWebsocket`:
`reconnects` is `self._reconnects`, `connected` is the
`self.connected` event, `authDone` records whether the
`WebSocketClient.authenticate` handshake has completed on the current
socket, and `gaveUp` records that the reconnect ceiling was hit. -/
structure WSState where
  reconnects : Nat
  connected : Bool
  authDone : Bool
  gaveUp : Bool
deriving DecidableEq, Repr

/-- Initial state: fresh client, `self._reconnects = 0`, event unset. -/
def ws_init : WSState := ⟨0, false, false, false⟩

/-- Lifecycle events, each embedded from a code path:
`socketOpen` is `_run` lines 39-43 (`ws.connect` succeeded),
`authOk` is `WebSocketClient.authenticate` completing (auth reply
resolved), `connLost` is the `ConnectionClosed` handler entering
`_reconnect` (lines 66-68 and 89-104), and `cancelConn` is `cancel`
(lines 113-120). -/
inductive Ev where
  | socketOpen
  | authOk
  | connLost
  | cancelConn
deriving DecidableEq, Repr

/-- Effects `_reconnect` can produce besides the state change. -/
inductive RcEffect where
  | logInfo
  | sleepWait
  | connectAgain
  | authReplay
  | logError
  | raiseToOwner (name : String)
deriving DecidableEq, Repr

/-- Whether an effect surfaces a failure to the owning caller. -/
def RcEffect.isRaise : RcEffect → Bool
  | .raiseToOwner _ => true
  | _ => false

/-- Embedding of `ReconnectingWebsocket._reconnect` (lines 89-104):
`cancel()` clears the connected event, the attempt counter is
incremented, and then either (below the ceiling) the code logs, sleeps
the backoff, reconnects and replays auth, or (at the ceiling) it only
logs an error — nothing is raised and no further attempt is scheduled. -/
def reconnect_effects (s : WSState) : WSState × List RcEffect :=
  let s1 : WSState := { s with connected := false, authDone := false }
  let s2 : WSState := { s1 with reconnects := s1.reconnects + 1 }
  if s2.reconnects < MAX_RECONNECTS then
    (s2, [RcEffect.logInfo, RcEffect.sleepWait, RcEffect.connectAgain, RcEffect.authReplay])
  else
    ({ s2 with gaveUp := true }, [RcEffect.logError])

/-- Guard telling whether an event can fire in a state: a socket can open
only while disconnected and not given up; `authenticate` first awaits
`self.ws.connected.wait()` (web_socket_client.py line 46), so the auth
handshake can only complete while the connected event is set; a
connection can only be lost while it exists. -/
def ws_guard (s : WSState) : Ev → Bool
  | .socketOpen => !s.connected && !s.gaveUp
  | .authOk => s.connected
  | .connLost => s.connected
  | .cancelConn => true

/-- One lifecycle step. `socketOpen` embeds `_run` lines 40-42 verbatim:
`self._reconnects = 0` and `self.connected.set()` happen right after
`ws.connect` returns, before any handshake; `authOk` only records
handshake completion and touches nothing else; `connLost` runs
`_reconnect`; `cancelConn` clears the event. -/
def ws_step (s : WSState) : Ev → WSState
  | .socketOpen => { s with reconnects := 0, connected := true, authDone := false }
  | .authOk => { s with authDone := true }
  | .connLost => (reconnect_effects s).1
  | .cancelConn => { s with connected := false, authDone := false }

/-- Run a sequence of events from a state, failing if a guard is violated
(so every `some` result is a reachable state). -/
def run_trace : WSState → List Ev → Option WSState
  | s, [] => some s
  | s, e :: rest => if ws_guard s e then run_trace (ws_step s e) rest else none

/-! ### reconnecting_websocket.py — backoff -/

/-- `ReconnectingWebsocket.MAX_RECONNECT_SECONDS` as a rational. -/
def MAX_RECONNECT_SECONDS : ℚ := 60

/-- Python's `round` on a rational: nearest integer, ties to even. -/
def pyRound (q : ℚ) : ℤ :=
  let f := ⌊q⌋
  if q - f < 1 / 2 then f
  else if 1 / 2 < q - f then f + 1
  else if 2 ∣ f then f else f + 1

/-- Embedding of `ReconnectingWebsocket._get_reconnect_wait` (lines
85-87) with the `random()` draw `r` as a parameter:
`round(r * min(60, 2 ** attempts - 1) + 1)`. -/
def get_reconnect_wait (attempts : Nat) (r : ℚ) : ℤ :=
  let expo : ℚ := 2 ^ attempts
  pyRound (r * min MAX_RECONNECT_SECONDS (expo - 1) + 1)

/-- The backoff formula as the spec states it for attempt `k` and random
factor `r`: `r * min(maxWait, 2^k - 1) + 1` seconds, with no rounding. -/
def spec_backoff_wait (k : Nat) (r : ℚ) : ℚ :=
  r * min MAX_RECONNECT_SECONDS ((2 : ℚ) ^ k - 1) + 1

/-! ### client close -/

/-- Whole-client state: the websocket lifecycle plus the two tables owned
by `WebSocketClient`. -/
structure ClientState where
  ws : WSState
  responses : RTable
  subs : Registry
deriving DecidableEq, Repr

/-- Embedding of `ReconnectingWebsocket.cancel` (lines 113-120): clear
the connected event, cancel the read-loop task, drop the socket. The
`responses` futures live in `WebSocketClient` and are not touched. -/
def cancel_ws (s : WSState) : WSState :=
  { s with connected := false, authDone := false }

/-- Embedding of `WebSocketClient.close` (lines 363-365): it only awaits
`self.ws.cancel()`; neither table is read or written. -/
def close_client (c : ClientState) : ClientState :=
  { c with ws := cancel_ws c.ws }

/-! ## Claims -/

/-- C1: for every inbound frame whose correlation key matches a pending
waiter in the responses table and which is not consumed earlier by the
control-topic rules, `on_message` resolves exactly that waiter, removes
exactly that entry in the same step, and delivers the frame to no
subscription callback. -/
theorem resolved_waiter_consumed
    (responses : RTable) (subs : Registry) (message : Msg) (k : RKey) (f : Nat)
    (hk : corr_key message = CorrStep.key k)
    (hf : alookup responses k = some f)
    (hping : get_message_topic message ≠ some (JVal.s "ping"))
    (hpong : get_message_topic message ≠ some (JVal.s "pong"))
    (hsub : get_message_topic message ≠ some (JVal.s "sub"))
    (hconn : get_message_topic message ≠ some (JVal.s "connected")) :
    on_message responses subs message =
      ⟨aerase responses k, some k, [], Outcome.resolved⟩ ∧
    alookup (aerase responses k) k = none ∧
    ∀ k' : RKey, k' ≠ k → alookup (aerase responses k) k' = alookup responses k' := by
  refine ⟨?_, alookup_aerase_self _ _, fun k' h => alookup_aerase_ne _ _ _ h⟩
  simp [on_message, hping, hpong, hsub, hconn, corr_and_route, hk, hf]

/-- Concrete reply resolving a pending order request, with a second
pending waiter and a live subscription present. -/
def c1_responses : RTable :=
  [((JVal.s "order", JVal.s "abc123"), 0), ((JVal.s "auth", JVal.s "x1"), 1)]

def c1_subs : Registry := [("order", [("cshaccount", [(7, false)])])]

def c1_msg : Msg :=
  [("m", JVal.s "order"), ("id", JVal.s "abc123"),
   ("info", JVal.obj [("id", JVal.s "abc123"), ("status", JVal.s "NEW")])]

/-- Witness for C1 at a concrete reply frame. -/
theorem resolved_waiter_consumed_witness :
    corr_key c1_msg = CorrStep.key (JVal.s "order", JVal.s "abc123") ∧
    alookup c1_responses (JVal.s "order", JVal.s "abc123") = some 0 ∧
    (on_message c1_responses c1_subs c1_msg =
      ⟨aerase c1_responses (JVal.s "order", JVal.s "abc123"),
       some (JVal.s "order", JVal.s "abc123"), [], Outcome.resolved⟩ ∧
     alookup (aerase c1_responses (JVal.s "order", JVal.s "abc123"))
       (JVal.s "order", JVal.s "abc123") = none ∧
     ∀ k' : RKey, k' ≠ (JVal.s "order", JVal.s "abc123") →
       alookup (aerase c1_responses (JVal.s "order", JVal.s "abc123")) k' =
         alookup c1_responses k') :=
  ⟨by decide, by decide,
   resolved_waiter_consumed c1_responses c1_subs c1_msg
     (JVal.s "order", JVal.s "abc123") 0
     (by decide) (by decide) (by decide) (by decide) (by decide) (by decide)⟩

/-- C2 counterexample: the state reached from the initial state by the
socket-open step alone is connected with no handshake done, so the
connected flag is set from socket-open alone, contrary to the claim. -/
theorem connected_before_handshake_cex :
    run_trace ws_init [Ev.socketOpen] =
      some { reconnects := 0, connected := true, authDone := false, gaveUp := false } ∧
    (ws_step ws_init Ev.socketOpen).connected = true ∧
    (ws_step ws_init Ev.socketOpen).authDone = false := by decide

/-- C2 amended: the connected flag is set by socket-open alone, before
any handshake (which is still unfinished right after the step); the
handshake itself can only complete while the flag is already set, since
`authenticate` first awaits the connected event. -/
theorem connected_flag_from_socket_open (s : WSState)
    (h : ws_guard s Ev.socketOpen = true) :
    (ws_step s Ev.socketOpen).connected = true ∧
    (ws_step s Ev.socketOpen).authDone = false ∧
    ∀ s' : WSState, ws_guard s' Ev.authOk = true → s'.connected = true := by
  refine ⟨rfl, rfl, fun s' h' => ?_⟩
  simpa [ws_guard] using h'

/-- Witness for the amended C2 at the initial state. -/
theorem connected_flag_from_socket_open_witness :
    ws_guard ws_init Ev.socketOpen = true ∧
    ((ws_step ws_init Ev.socketOpen).connected = true ∧
     (ws_step ws_init Ev.socketOpen).authDone = false ∧
     ∀ s' : WSState, ws_guard s' Ev.authOk = true → s'.connected = true) :=
  ⟨by decide, connected_flag_from_socket_open ws_init (by decide)⟩

/-- C3: `close` only cancels the websocket task and clears the connected
event; the responses table holding the pending waiter futures is not
read, failed or cleared, so every outstanding waiter stays pending
forever — the code diverges from the claim. -/
theorem close_leaves_waiters_pending (c : ClientState) :
    (close_client c).responses = c.responses ∧
    (close_client c).subs = c.subs ∧
    (close_client c).ws.connected = false :=
  ⟨rfl, rfl, rfl⟩

/-- C4: any reply carrying a `reason` field reaches the raise site of
`_wait_response`, but the `AscendexAPIException` constructor accepts two
arguments and four are passed, so the call raises a bare `TypeError`
carrying neither action, id nor reason — the code diverges from the
claim. -/
theorem reason_reply_raises_type_error
    (url action : String) (result : Msg) (r : JVal)
    (h : alookup result "reason" = some r) :
    wait_response_settle url action result = WaitOutcome.typeErr := by
  simp [wait_response_settle, h, construct_ascendex_exc, wait_raise_args,
    ascendex_exc_params]

/-- The spec's own scenario reply for C4. -/
def c4_msg : Msg :=
  [("m", JVal.s "order"), ("id", JVal.s "abc123"), ("reason", JVal.s "AUTH_NEEDED")]

/-- Witness for C4 at the spec's scenario input. -/
theorem reason_reply_raises_type_error_witness :
    alookup c4_msg "reason" = some (JVal.s "AUTH_NEEDED") ∧
    wait_response_settle "wss://ascendex.com/0/api/pro/v1/stream" "order" c4_msg =
      WaitOutcome.typeErr :=
  ⟨by decide,
   reason_reply_raises_type_error "wss://ascendex.com/0/api/pro/v1/stream" "order"
     c4_msg (JVal.s "AUTH_NEEDED") (by decide)⟩

/-- C5 counterexample: a fifth consecutive failure reaches the ceiling;
`_reconnect` stops scheduling attempts but its only effect is an error
log — no failure of any kind is surfaced to the owner, contrary to the
claim. -/
theorem reconnect_ceiling_only_logs_cex :
    reconnect_effects ⟨4, true, true, false⟩ =
      ({ reconnects := 5, connected := false, authDone := false, gaveUp := true },
       [RcEffect.logError]) ∧
    (reconnect_effects ⟨4, true, true, false⟩).2.all (fun e => !e.isRaise) = true := by
  decide

/-- C5 amended: reaching the configured ceiling is terminal — no further
connection attempt is scheduled — but the exhaustion is only logged; no
fatal failure is raised to the owning caller. -/
theorem reconnect_exhaustion_not_surfaced (s : WSState)
    (h : MAX_RECONNECTS ≤ s.reconnects + 1) :
    (reconnect_effects s).2 = [RcEffect.logError] ∧
    (reconnect_effects s).1.gaveUp = true ∧
    RcEffect.connectAgain ∉ (reconnect_effects s).2 ∧
    ∀ e ∈ (reconnect_effects s).2, e.isRaise = false := by
  have hlt : ¬ (s.reconnects + 1 < MAX_RECONNECTS) := not_lt.mpr h
  simp [reconnect_effects, hlt, RcEffect.isRaise]

/-- Witness for the amended C5 at the state with four prior failures. -/
theorem reconnect_exhaustion_not_surfaced_witness :
    MAX_RECONNECTS ≤ (4 : Nat) + 1 ∧
    ((reconnect_effects ⟨4, true, true, false⟩).2 = [RcEffect.logError] ∧
     (reconnect_effects ⟨4, true, true, false⟩).1.gaveUp = true ∧
     RcEffect.connectAgain ∉ (reconnect_effects ⟨4, true, true, false⟩).2 ∧
     ∀ e ∈ (reconnect_effects ⟨4, true, true, false⟩).2, e.isRaise = false) :=
  ⟨by decide, reconnect_exhaustion_not_surfaced ⟨4, true, true, false⟩ (by decide)⟩

/-- C6 counterexample: at attempt 1 with random draw 1/2 the code
returns `round(1/2 * min(60, 1) + 1) = 2`, while the claimed formula
gives `3/2` — the code rounds the value, the claim does not. -/
theorem backoff_wait_rounds_cex :
    get_reconnect_wait 1 (1 / 2) = 2 ∧
    spec_backoff_wait 1 (1 / 2) = 3 / 2 ∧
    ((get_reconnect_wait 1 (1 / 2) : ℚ) ≠ spec_backoff_wait 1 (1 / 2)) := by
  refine ⟨?_, ?_, ?_⟩ <;>
    norm_num [get_reconnect_wait, spec_backoff_wait, pyRound, MAX_RECONNECT_SECONDS]

/-- Rounding a rational that is at least one yields at least one. -/
theorem one_le_pyRound (q : ℚ) (h : 1 ≤ q) : 1 ≤ pyRound q := by
  have hf : (1 : ℤ) ≤ ⌊q⌋ := Int.le_floor.mpr (by exact_mod_cast h)
  simp only [pyRound]
  split
  · exact hf
  · split
    · omega
    · split
      · exact hf
      · omega

/-- C6 amended: the computed wait is exactly the spec's backoff formula
passed through Python's `round` (nearest integer, ties to even), and for
any attempt number and any non-negative random draw it is at least one
second, hence non-negative. -/
theorem backoff_wait_rounded_nonneg (k : Nat) (r : ℚ) (hr : 0 ≤ r) :
    get_reconnect_wait k r = pyRound (spec_backoff_wait k r) ∧
    1 ≤ get_reconnect_wait k r := by
  refine ⟨rfl, ?_⟩
  have hpow : (1 : ℚ) ≤ 2 ^ k := by
    induction k with
    | zero => norm_num
    | succ n ih => rw [pow_succ]; nlinarith
  have hm : (0 : ℚ) ≤ min MAX_RECONNECT_SECONDS ((2 : ℚ) ^ k - 1) :=
    le_min (by norm_num [MAX_RECONNECT_SECONDS]) (by linarith)
  have hq : (1 : ℚ) ≤ r * min MAX_RECONNECT_SECONDS ((2 : ℚ) ^ k - 1) + 1 := by
    nlinarith
  exact one_le_pyRound _ hq

/-- Witness for the amended C6 at attempt 1 with random draw 1/2. -/
theorem backoff_wait_rounded_nonneg_witness :
    (0 : ℚ) ≤ 1 / 2 ∧
    (get_reconnect_wait 1 (1 / 2) = pyRound (spec_backoff_wait 1 (1 / 2)) ∧
     1 ≤ get_reconnect_wait 1 (1 / 2)) :=
  ⟨by norm_num, backoff_wait_rounded_nonneg 1 (1 / 2) (by norm_num)⟩

/-- C7 counterexample: after a socket open and a connection loss the
counter is 1; reopening the socket resets it to 0 while no handshake has
completed on the new socket, and a completed handshake itself leaves the
counter unchanged — the reset happens at socket open, not at handshake
success. -/
theorem reconnects_reset_at_socket_open_cex :
    run_trace ws_init [Ev.socketOpen, Ev.connLost] =
      some { reconnects := 1, connected := false, authDone := false, gaveUp := false } ∧
    run_trace ws_init [Ev.socketOpen, Ev.connLost, Ev.socketOpen] =
      some { reconnects := 0, connected := true, authDone := false, gaveUp := false } ∧
    (ws_step ⟨3, true, false, false⟩ Ev.authOk).reconnects = 3 := by decide

/-- C7 amended: the reconnect counter is reset to zero when the socket is
(re)opened, before any handshake on that socket; handshake completion
itself never changes the counter. -/
theorem reconnects_reset_on_socket_open (s : WSState)
    (h : ws_guard s Ev.socketOpen = true) :
    (ws_step s Ev.socketOpen).reconnects = 0 ∧
    (ws_step s Ev.socketOpen).authDone = false ∧
    ∀ s' : WSState, (ws_step s' Ev.authOk).reconnects = s'.reconnects :=
  ⟨rfl, rfl, fun _ => rfl⟩

/-- Witness for the amended C7 at a disconnected state with three
recorded failures. -/
theorem reconnects_reset_on_socket_open_witness :
    ws_guard ⟨3, false, false, false⟩ Ev.socketOpen = true ∧
    ((ws_step ⟨3, false, false, false⟩ Ev.socketOpen).reconnects = 0 ∧
     (ws_step ⟨3, false, false, false⟩ Ev.socketOpen).authDone = false ∧
     ∀ s' : WSState, (ws_step s' Ev.authOk).reconnects = s'.reconnects) :=
  ⟨by decide, reconnects_reset_on_socket_open ⟨3, false, false, false⟩ (by decide)⟩

/-- Two callbacks registered for trades on BTC/USD, the first of which
raises. -/
def c8_subs : Registry := [("trades", [("BTC/USD", [(1, true), (2, false)])])]

def c8_msg : Msg :=
  [("m", JVal.s "trades"), ("symbol", JVal.s "BTC/USD"),
   ("data", JVal.arr [JVal.n 1, JVal.n 2, JVal.n 3])]

/-- C8 counterexample: with two registered callbacks of which the first
raises, only the first is invoked; the exception escapes `on_message`
(it is caught and logged around the whole message in the read loop, not
per callback), so the second callback never receives the frame, contrary
to the claim. -/
theorem callback_failure_blocks_rest_cex :
    on_message [] c8_subs c8_msg = ⟨[], none, [1], Outcome.raised⟩ ∧
    (2 : Nat) ∉ (on_message [] c8_subs c8_msg).invoked := by decide

/-- C8 amended: callbacks are invoked sequentially in the iteration order
of the stored set, but a raising callback terminates the fan-out loop:
every callback before the first raising one runs, the raising one runs,
and the exception escapes (caught and logged only around the whole
message in the read loop), so no later callback runs; when no callback
raises, all of them run in order. -/
theorem deliver_stops_at_raising_callback (pre post : List Cb) (c : Cb)
    (hpre : ∀ cb ∈ pre, cb.2 = false) (hc : c.2 = true) :
    deliver (pre ++ c :: post) = (pre.map Prod.fst ++ [c.1], true) ∧
    deliver pre = (pre.map Prod.fst, false) := by
  induction pre with
  | nil => simp [deliver, hc]
  | cons x xs ih =>
      have hx : x.2 = false := hpre x (List.mem_cons_self _ _)
      have hxs : ∀ cb ∈ xs, cb.2 = false := fun cb hm => hpre cb (List.mem_cons_of_mem _ hm)
      have ih' := ih hxs
      simp [deliver, hx, ih'.1, ih'.2]

/-- Witness for the amended C8: one succeeding callback, then a raising
one, then one more that is cut off. -/
theorem deliver_stops_at_raising_callback_witness :
    (∀ cb ∈ [((1 : Nat), false)], cb.2 = false) ∧
    ((2 : Nat), true).2 = true ∧
    (deliver ([((1 : Nat), false)] ++ ((2 : Nat), true) :: [((3 : Nat), false)]) =
      ([((1 : Nat), false)].map Prod.fst ++ [((2 : Nat), true).1], true) ∧
     deliver [((1 : Nat), false)] = ([((1 : Nat), false)].map Prod.fst, false)) :=
  ⟨by decide, by decide,
   deliver_stops_at_raising_callback [(1, false)] [(3, false)] (2, true)
     (by decide) (by decide)⟩

/-- C9: for every timestamp, key and secret (and any implementation of
the external HMAC/base64/UTF-8 primitives), the auth frame carries
exactly the fields op, id, t, key, sig in this order, with op "auth",
the integer timestamp, the configured key, and the signature equal to
base64(HMAC-SHA256(base64decode(secret), "<t>+stream")). -/
theorem auth_frame_fields_and_sig (c : Crypto) (ts : Nat) (id_ key secret : String) :
    (auth_frame c ts id_ key secret).map Prod.fst = ["op", "id", "t", "key", "sig"] ∧
    alookup (auth_frame c ts id_ key secret) "op" = some (JVal.s "auth") ∧
    alookup (auth_frame c ts id_ key secret) "id" = some (JVal.s id_) ∧
    alookup (auth_frame c ts id_ key secret) "t" = some (JVal.n ts) ∧
    alookup (auth_frame c ts id_ key secret) "key" = some (JVal.s key) ∧
    alookup (auth_frame c ts id_ key secret) "sig" =
      some (JVal.s (spec_auth_sig c ts secret)) := by
  have hmsg : toString ts ++ "+" ++ "stream" = toString ts ++ "+stream" := by
    rw [String.append_assoc]
    rfl
  refine ⟨rfl, ?_, ?_, ?_, ?_, ?_⟩ <;>
    simp [auth_frame, make_auth_headers, sign, spec_auth_sig, alookup, hmsg]

/-- C10: for a (channel, id) pair not present in the subscriber registry,
`unsubscribe` raises KeyError, yet the wire unsub frame has already been
emitted (when connected) because the send happens before the registry
lookup, and the registry is left unchanged by the failing call. -/
theorem unsubscribe_missing_key_raises
    (connected : Bool) (subs : Registry) (channel id_ : String)
    (h : (alookup subs channel).bind (fun inner => alookup inner id_) = none) :
    unsubscribe connected subs channel id_ =
      (send_subscribe connected id_ channel true, subs, true) ∧
    (connected = true → send_subscribe connected id_ channel true =
      [{ op := "unsub", ch := channel ++ ":" ++ id_ }]) := by
  constructor
  · unfold unsubscribe
    cases hch : alookup subs channel with
    | none => simp
    | some inner =>
        have hin : alookup inner id_ = none := by simpa [hch] using h
        simp [hin]
  · intro hcon
    simp [send_subscribe, get_subscribe_message, hcon]

/-- Witness for C10: unsubscribing an id that was never subscribed on a
live channel, while connected. -/
def c10_subs : Registry := [("trades", [("ETH/USD", [(5, false)])])]

theorem unsubscribe_missing_key_raises_witness :
    (alookup c10_subs "trades").bind (fun inner => alookup inner "BTC/USD") = none ∧
    (unsubscribe true c10_subs "trades" "BTC/USD" =
      (send_subscribe true "BTC/USD" "trades" true, c10_subs, true) ∧
     (true = true → send_subscribe true "BTC/USD" "trades" true =
       [{ op := "unsub", ch := "trades" ++ ":" ++ "BTC/USD" }])) :=
  ⟨by decide,
   unsubscribe_missing_key_raises true c10_subs "trades" "BTC/USD" (by decide)⟩

end Ascendex
